import Mathlib

/-!
Shallow embedding of the `python-freshdesk` client (src/freshdesk/api.py and
src/freshdesk/models.py) and proofs about the behaviour its specification
claims.  Python values are modelled by `PyVal`, exceptions by `PyExc`; every
definition is translated line by line from the corresponding Python function.
-/

namespace Freshdesk

/-- Model of the Python/JSON values the client manipulates.  `parserObj info`
models an instance of the `dateutil.parser.parser` class holding its `info`
argument (models.py imports that class, not the `parse` function), and
`parserinfo` models a default-constructed `dateutil.parser.parserinfo`. -/
inductive PyVal where
  | pynone
  | bool (b : Bool)
  | int (n : Int)
  | str (s : String)
  | list (xs : List PyVal)
  | dict (kvs : List (String × PyVal))
  | parserObj (info : PyVal)
  | parserinfo

/-- Python truthiness, as used by `bool(...)` and by the `or` operator:
`None`, `False`, `0`, the empty string and empty containers are falsy;
any object (such as a `parser` instance) is truthy. -/
def PyVal.truthy : PyVal → Bool
  | .pynone => false
  | .bool b => b
  | .int n => !(n == 0)
  | .str s => !(s == "")
  | .list xs => !xs.isEmpty
  | .dict kvs => !kvs.isEmpty
  | .parserObj _ => true
  | .parserinfo => true

/-- Python `a or b`: returns `a` when `a` is truthy, else `b`. -/
def pyOr (a b : PyVal) : PyVal :=
  if a.truthy then a else b

/-- Python `bool(v)`. -/
def pyBool (v : PyVal) : Bool :=
  v.truthy

/-- The Python exceptions the embedded code can raise. -/
inductive PyExc where
  | httpStatusError (code : Nat)
  | httpError (msg : String)
  | nameError (n : String)
  | typeError
  | keyError (k : String)
  | attributeError (n : String)
  | cantSetAttribute (n : String)
  deriving DecidableEq, Repr

/-- An HTTP response as seen by `API._handle_response`: its status code, its
header list, and the result of `response.json()` (`none` models a body that
is not parseable as JSON, i.e. `.json()` raising). -/
structure HTTPResponse where
  status : Nat
  headers : List (String × String)
  jsonBody : Option PyVal

/-- Membership test of a header name, modelling `name in response.headers`. -/
def hasHeader (resp : HTTPResponse) (name : String) : Bool :=
  resp.headers.any (fun h => h.1 == name)

/-- Helper: is `sub` a contiguous sublist of the second argument?  Used to
model Python's substring containment `sub in s`. -/
def charsContain (sub : List Char) : List Char → Bool
  | [] => sub.isEmpty
  | c :: rest => List.isPrefixOf sub (c :: rest) || charsContain sub rest

/-- The Python expression `'require_login' in j` (api.py line 189): key
membership for a dict, element membership for a list (string equality with a
non-string JSON value is `False` in Python), substring test for a string,
and a `TypeError` for any non-container value. -/
def require_login_in (j : PyVal) : Except PyExc Bool :=
  match j with
  | .dict kvs => .ok (kvs.any (fun kv => kv.1 == "require_login"))
  | .list xs => .ok (xs.any (fun v =>
      match v with
      | .str t => t == "require_login"
      | _ => false))
  | .str s => .ok (charsContain "require_login".data s.data)
  | _ => .error .typeError

/-- The body of the `try:` block in `API._handle_response` (api.py lines
187-190): evaluate `'require_login' in j` and, when it holds, raise
`HTTPError('403 Forbidden: API key is incorrect for this domain')`. -/
def json_try_block (j : PyVal) : Except PyExc PyVal :=
  match require_login_in j with
  | .error e => .error e
  | .ok true => .error (.httpError "403 Forbidden: API key is incorrect for this domain")
  | .ok false => .ok j

/-- The result of a call to `API._handle_response`: either an uncaught
exception propagates (`raised`) or a value is returned (`ret`). -/
inductive PyOutcome where
  | raised (e : PyExc)
  | ret (v : PyVal)

/-- `API._handle_response` (api.py lines 179-193), line by line:
`response.raise_for_status()` raises for any status of 400 or above; then, if
a `Retry-After` header is present, the source executes
`raise HTTPError('...'.format(r.headers['Retry-After']))` — but `r` is an
undefined name, so evaluating the argument raises `NameError` before the
`HTTPError` is ever constructed; then a `try:` block parses the body and
raises the authentication `HTTPError` when `'require_login'` is in it, but
the block's bare `except:` catches every exception raised inside it
(including that `HTTPError`) and replaces the result with the string
`"\x7b\x7d"`, which is then returned. -/
def handle_response (resp : HTTPResponse) : PyOutcome :=
  if 400 ≤ resp.status then
    .raised (.httpStatusError resp.status)
  else if hasHeader resp "Retry-After" then
    .raised (.nameError "r")
  else
    match resp.jsonBody with
    | Option.none => .ret (.str "\x7b\x7d")
    | some j =>
      match json_try_block j with
      | .ok v => .ret v
      | .error _ => .ret (.str "\x7b\x7d")

/-! Embedding of models.py: hydration of model instances. -/

/-- Names reachable as class attributes of `Topic` (its properties `sticky`,
`locked`, `stamp_type`, `posts`, its method `update`, and the attributes
inherited from `FreshdeskModel`), as tested by `hasattr(Topic, k)` in
`FreshdeskModel.__init__` (dunder names are omitted: they cannot occur as
JSON object keys). -/
def topicAttrs : List String :=
  ["sticky", "locked", "stamp_type", "posts", "update", "_keys", "_to_timestamp"]

/-- Names reachable as class attributes of `Ticket`, as tested by
`hasattr(Ticket, k)`. -/
def ticketAttrs : List String :=
  ["comments", "priority", "status", "source", "_keys", "_to_timestamp"]

/-- Names reachable as class attributes of `SolutionFolder`, as tested by
`hasattr(SolutionFolder, k)`. -/
def solutionFolderAttrs : List String :=
  ["visibility", "articles", "_keys", "_to_timestamp"]

/-- Names reachable as class attributes of `Solution`, as tested by
`hasattr(Solution, k)`. -/
def solutionAttrs : List String :=
  ["tags", "article_type", "status", "_keys", "_to_timestamp"]

/-- One of the four `if hasattr(C, k): k = '_' + k` lines of
`FreshdeskModel.__init__` (models.py lines 16-23). -/
def step (attrs : List String) (k : String) : String :=
  if k ∈ attrs then "_" ++ k else k

/-- The whole renaming cascade of `FreshdeskModel.__init__`: the four
`hasattr` checks are applied in source order (Topic, Ticket, SolutionFolder,
Solution), each one seeing the name left by the previous one. -/
def rename (k : String) : String :=
  step solutionAttrs (step solutionFolderAttrs (step ticketAttrs (step topicAttrs k)))

/-- Instance attribute dictionary: later assignments shadow earlier ones, so
`setattr` is modelled by consing and `getattr` by the first matching key. -/
def Attrs : Type := List (String × PyVal)

/-- Python `getattr(self, k)` over the modelled attribute dictionary. -/
def getAttr (attrs : Attrs) (k : String) : Option PyVal :=
  (show List (String × PyVal) from attrs).lookup k

/-- Python `set.add`: insert a key into the `_keys` set unless present. -/
def keysAdd (keys : List String) (k : String) : List String :=
  if k ∈ keys then keys else k :: keys

/-- Getter-only properties defined on each concrete model class; assigning
one of these names with `setattr` raises `AttributeError` (no setter). -/
def topicProps : List String := ["sticky", "locked", "stamp_type", "posts"]

/-- Getter-only properties of `Ticket`. -/
def ticketProps : List String := ["comments", "priority", "status", "source"]

/-- Getter-only properties of `SolutionCategory`. -/
def solutionCategoryProps : List String := ["folders"]

/-- Getter-only properties of `SolutionFolder`. -/
def solutionFolderProps : List String := ["visibility", "articles"]

/-- Getter-only properties of `Solution`. -/
def solutionProps : List String := ["tags", "article_type", "status"]

/-- Getter-only properties of `Contact` (it defines none). -/
def contactProps : List String := []

/-- The constructor of the `dateutil.parser.parser` class, which is what
models.py imports under the alias used by `_to_timestamp`:
`parser.__init__(self, info=None)` stores `info or parserinfo()` and never
parses its argument, so construction succeeds on any value. -/
def to_timestamp (v : PyVal) : PyVal :=
  .parserObj (pyOr v .parserinfo)

/-- The `for k, v in kwargs.items():` loop of `FreshdeskModel.__init__`
(models.py lines 13-25), threading the process-wide class-level `_keys` set:
each key is renamed through the `hasattr` cascade, assigned with `setattr`
(which raises when the name is a getter-only property of the instance's
class, `props`), and then added to the shared `_keys` set.  The updated
`_keys` set is returned even when an exception escapes the loop, because the
additions made before the failing iteration persist. -/
def hydrateLoop (props : List String) :
    List (String × PyVal) → List String → Attrs → List String × Except PyExc Attrs
  | [], keys, attrs => (keys, .ok attrs)
  | (k, v) :: rest, keys, attrs =>
    if rename k ∈ props then (keys, .error (.cantSetAttribute (rename k)))
    else hydrateLoop props rest (keysAdd keys (rename k)) ((rename k, v) :: attrs)

/-- The two trailing statements of `FreshdeskModel.__init__` (models.py lines
26-27): `self.created_at = self._to_timestamp(self.created_at)` and the same
for `updated_at`; reading a missing attribute raises `AttributeError`. -/
def hydrateTimestamps : Except PyExc Attrs → Except PyExc Attrs
  | .error e => .error e
  | .ok attrs =>
    match getAttr attrs "created_at" with
    | Option.none => .error (.attributeError "created_at")
    | some v =>
      let attrs2 : Attrs := ("created_at", to_timestamp v) :: attrs
      match getAttr attrs2 "updated_at" with
      | Option.none => .error (.attributeError "updated_at")
      | some w => .ok (("updated_at", to_timestamp w) :: attrs2)

/-- `FreshdeskModel.__init__` for a model class with getter-only properties
`props`, starting from the current state `g` of the shared class-level
`_keys` set: returns the updated `_keys` set and either the hydrated
attribute dictionary or the exception that escaped. -/
def hydrate (props : List String) (g : List String) (kwargs : List (String × PyVal)) :
    List String × Except PyExc Attrs :=
  let r := hydrateLoop props kwargs g []
  (r.1, hydrateTimestamps r.2)

/-! Computed properties of the model classes (models.py). -/

/-- The lookup table of the `Ticket.priority` property (models.py line 109). -/
def priority_table : List (Int × String) :=
  [(1, "low"), (2, "medium"), (3, "high"), (4, "urgent")]

/-- The lookup table of the `Ticket.status` property (models.py line 114). -/
def status_table : List (Int × String) :=
  [(2, "open"), (3, "pending"), (4, "resolved"), (5, "closed")]

/-- The lookup table of the `Ticket.source` property (models.py line 122). -/
def source_table : List (Int × String) :=
  [(1, "email"), (2, "portal"), (3, "phone"), (4, "forum"), (5, "twitter"),
   (6, "facebook"), (7, "chat")]

/-- Body of the `Ticket.priority` property on a numeric code: a plain dict
lookup, whose `KeyError` on an absent code is modelled by `none`. -/
def Ticket.priorityLabel (c : Int) : Option String :=
  priority_table.lookup c

/-- Body of the `Ticket.status` property on a numeric code: dict lookup with
the `except KeyError` fallback returning the generated label. -/
def Ticket.statusLabel (c : Int) : String :=
  match status_table.lookup c with
  | some s => s
  | Option.none => "status_" ++ toString c

/-- Body of the `Ticket.source` property on a numeric code. -/
def Ticket.sourceLabel (c : Int) : Option String :=
  source_table.lookup c

/-- The `Ticket.status` property read from a hydrated instance (the claims
concern instances hydrated with numeric codes; `none` models the failures
outside that scope). -/
def Ticket.status (attrs : Attrs) : Option String :=
  match getAttr attrs "_status" with
  | some (.int c) => some (Ticket.statusLabel c)
  | _ => Option.none

/-- The `Ticket.priority` property read from a hydrated instance. -/
def Ticket.priority (attrs : Attrs) : Option String :=
  match getAttr attrs "_priority" with
  | some (.int c) => Ticket.priorityLabel c
  | _ => Option.none

/-- The `Ticket.source` property read from a hydrated instance. -/
def Ticket.source (attrs : Attrs) : Option String :=
  match getAttr attrs "_source" with
  | some (.int c) => Ticket.sourceLabel c
  | _ => Option.none

/-- The `Topic.sticky` property: `bool(self._sticky)` (models.py line 66);
`none` models the `AttributeError` when `_sticky` was never hydrated. -/
def Topic.sticky (attrs : Attrs) : Option Bool :=
  (getAttr attrs "_sticky").map pyBool

/-- The `Topic.locked` property: `bool(self._locked)` (models.py line 71). -/
def Topic.locked (attrs : Attrs) : Option Bool :=
  (getAttr attrs "_locked").map pyBool

/-! Embedding of api.py: request bodies and ticket-list pagination. -/

/-- `API._create_post` (api.py lines 174-177): the structured value that
`json.dumps(\x7bpost_type: kwargs\x7d)` serializes — a single-key wrapper
around the keyword arguments in their given order. -/
def create_post (post_type : String) (kwargs : List (String × PyVal)) : PyVal :=
  .dict [(post_type, .dict kwargs)]

/-- `TopicAPI.create_topic` (api.py lines 76-80): the body handed to
`_create_post`.  The source forwards `forum_id`, `title`, `locked` and
`body_html` in that order; its `sticky` parameter is accepted but never
forwarded. -/
def create_topic_data (forum_id title body_html sticky locked : PyVal) : PyVal :=
  create_post "topic"
    [("forum_id", forum_id), ("title", title), ("locked", locked), ("body_html", body_html)]

/-- `SolutionAPI.create_category` (api.py lines 13-17): the body handed to
`_create_post`. -/
def create_category_data (name description : PyVal) : PyVal :=
  create_post "solution_category" [("name", name), ("description", description)]

/-- `SolutionAPI.create_folder` (api.py lines 31-40): the body handed to
`_create_post`. -/
def create_folder_data (category_id name visibility description cfa : PyVal) : PyVal :=
  create_post "solution_folder"
    [("category_id", category_id), ("name", name), ("visibility", visibility),
     ("description", description), ("customer_folder_attributes", cfa)]

/-- `SolutionAPI.create_article` (api.py lines 54-59): the body handed to
`_create_post`; the `tags` parameter is dropped (marked TODO in the source)
and `category_id` is used only in the URL. -/
def create_article_data (folder_id title status art_type description : PyVal) : PyVal :=
  create_post "solution_article"
    [("folder_id", folder_id), ("title", title), ("status", status),
     ("art_type", art_type), ("description", description)]

/-- `ContactAPI.create_contact` (api.py lines 142-144): the body handed to
`_create_post`. -/
def create_contact_data (name email : PyVal) : PyVal :=
  create_post "user" [("name", name), ("email", email)]

/-- Reads field `k` of the payload stored under resource-type key `ty` in a
single-key wrapper body, as a later JSON consumer of the request would. -/
def bodyField (body : PyVal) (ty k : String) : Option PyVal :=
  match body with
  | .dict [(ty2, .dict fields)] => if ty2 = ty then getAttr fields k else Option.none
  | _ => Option.none

/-- `Topic.update` (models.py lines 84-92): the body handed to
`_create_post`, built from the instance's current values (`self.title`, the
first post's `body_html`, and the boolean `sticky`/`locked` properties) with
the source's `new or old` fallback on every field. -/
def Topic.update_body (self_title self_posts0_body_html : PyVal)
    (self_sticky self_locked : Bool) (title body_html sticky locked : PyVal) : PyVal :=
  create_post "topic"
    [("title", pyOr title self_title),
     ("body_html", pyOr body_html self_posts0_body_html),
     ("sticky", pyOr sticky (.bool self_sticky)),
     ("locked", pyOr locked (.bool self_locked))]

/-- `Post.update` (models.py lines 48-53): the body handed to `_create_post`,
with the same `new or old` fallback on `body_html`. -/
def Post.update_body (self_body_html body_html : PyVal) : PyVal :=
  create_post "post" [("body_html", pyOr body_html self_body_html)]

/-- Python `t['display_id']` on a ticket summary: dict indexing, raising
`KeyError` when the key is absent and `TypeError` on a non-dict. -/
def getItem (t : PyVal) (k : String) : Except PyExc PyVal :=
  match t with
  | .dict kvs =>
    match kvs.lookup k with
    | some v => .ok v
    | Option.none => .error (.keyError k)
  | _ => .error .typeError

/-- The final list comprehension of `TicketAPI.list_tickets` (api.py line
119): left-to-right evaluation, propagating the first exception raised. -/
def comprehension {α : Type} (f : PyVal → Except PyExc α) :
    List PyVal → Except PyExc (List α)
  | [] => .ok []
  | t :: ts =>
    match f t with
    | .error e => .error e
    | .ok a =>
      match comprehension f ts with
      | .error e => .error e
      | .ok rest => .ok (a :: rest)

/-- The `while True:` pagination loop of `TicketAPI.list_tickets` (api.py
lines 108-117).  `pages p` is the JSON list the server returns for
`&page=p`; the loop starts at page 1 with an empty accumulator, stops at the
first page of length zero, and otherwise appends the page and increments the
page number.  `fuel` bounds the number of iterations so the function is
total; `none` means the loop did not terminate within `fuel` iterations. -/
def list_tickets_pages (pages : Nat → List PyVal) :
    Nat → Nat → List PyVal → Option (List PyVal)
  | 0, _, _ => Option.none
  | fuel + 1, page, tickets =>
    if (pages page).length = 0 then some tickets
    else list_tickets_pages pages fuel (page + 1) (tickets ++ pages page)

/-- `TicketAPI.list_tickets` (api.py lines 92-119): run the pagination loop,
then replace every accumulated summary `t` by `get_ticket(t['display_id'])`,
where `get_ticket` abstracts the per-ticket re-fetch
`TicketAPI.get_ticket`. -/
def list_tickets {α : Type} (pages : Nat → List PyVal) (get_ticket : PyVal → α)
    (fuel : Nat) : Option (Except PyExc (List α)) :=
  (list_tickets_pages pages fuel 1 []).map
    (comprehension (fun t => (getItem t "display_id").map get_ticket))

/-! Theorems for the claims. -/

/-- C1: the claim says a 2xx response whose JSON body contains the key
`require_login` makes every transport operation raise the authentication
error.  In the source the `HTTPError` raised inside the `try:` block of
`_handle_response` is caught by that block's own bare `except:`, so the
function instead RETURNS the two-character string of an empty JSON object:
no error reaches the caller. -/
theorem C1_require_login_error_swallowed (resp : HTTPResponse) (j : PyVal)
    (hstatus : resp.status < 400) (hheader : hasHeader resp "Retry-After" = false)
    (hbody : resp.jsonBody = some j) (hkey : require_login_in j = Except.ok true) :
    handle_response resp = PyOutcome.ret (PyVal.str "\x7b\x7d") := by
  have h1 : ¬ 400 ≤ resp.status := by omega
  simp [handle_response, h1, hheader, hbody, json_try_block, hkey]

/-- Witness for C1 at a concrete 200 response whose body is the dict
containing `require_login`. -/
theorem C1_witness :
    handle_response ⟨200, [("Content-Type", "application/json")],
        some (.dict [("require_login", .bool true)])⟩ =
      PyOutcome.ret (PyVal.str "\x7b\x7d") :=
  C1_require_login_error_swallowed _ _ (by decide) rfl rfl rfl

/-- C2: the claim says a response carrying a `Retry-After` header makes every
transport operation raise the distinct rate-limit error before any JSON
parsing.  An error is indeed raised before the body is touched (the theorem
holds for every `jsonBody`, parseable or not), but it is a `NameError`: the
source formats the message with `r.headers['Retry-After']` and `r` is an
undefined name, so the intended rate-limit `HTTPError` is never
constructed. -/
theorem C2_retry_after_raises_name_error (resp : HTTPResponse)
    (hstatus : resp.status < 400) (hheader : hasHeader resp "Retry-After" = true) :
    handle_response resp = PyOutcome.raised (PyExc.nameError "r") := by
  have h1 : ¬ 400 ≤ resp.status := by omega
  simp [handle_response, h1, hheader]

/-- Witness for C2 at a concrete 200 response with a `Retry-After` header and
an unparseable body (no JSON parsing is needed to raise). -/
theorem C2_witness :
    handle_response ⟨200, [("Retry-After", "60")], Option.none⟩ =
      PyOutcome.raised (PyExc.nameError "r") :=
  C2_retry_after_raises_name_error _ (by decide) rfl

/-- A fixed-shape ticket JSON fragment with symbolic numeric codes, as
hydrated by `TicketAPI.get_ticket`. -/
def ticketFragment (st pr so : Int) : List (String × PyVal) :=
  [("subject", .str "S"), ("status", .int st), ("priority", .int pr),
   ("source", .int so), ("created_at", .str "c"), ("updated_at", .str "u")]

/-- C4 (counterexample): the claim says priority code 3 maps to the label
"medium"; in the source table `\x7b1: 'low', 2: 'medium', 3: 'high',
4: 'urgent'\x7d` code 3 maps to "high". -/
theorem C4_counterexample :
    Ticket.priorityLabel 3 = some "high" ∧
      (some "high" : Option String) ≠ some "medium" := by
  exact ⟨rfl, by decide⟩

/-- C4 (amended): a Ticket hydrated with numeric status/priority/source codes
exposes the labels of the fixed tables through its properties — status code
2 maps to "open", status code 3 maps to "pending", priority code 2 maps to
"medium" (priority code 3 maps to "high") — and a status code absent from
the table yields the generated label `status_` followed by the code. -/
theorem C4_ticket_labels (st pr so : Int) :
    ∃ attrs : Attrs, (hydrate ticketProps [] (ticketFragment st pr so)).2 = Except.ok attrs ∧
      Ticket.status attrs = some (Ticket.statusLabel st) ∧
      Ticket.priority attrs = Ticket.priorityLabel pr ∧
      Ticket.source attrs = Ticket.sourceLabel so ∧
      Ticket.statusLabel 2 = "open" ∧
      Ticket.statusLabel 3 = "pending" ∧
      Ticket.priorityLabel 2 = some "medium" ∧
      Ticket.priorityLabel 3 = some "high" ∧
      (status_table.lookup st = Option.none →
        Ticket.statusLabel st = "status_" ++ toString st) := by
  refine ⟨_, rfl, rfl, rfl, rfl, rfl, rfl, rfl, rfl, ?_⟩
  intro h
  simp [Ticket.statusLabel, h]

/-- Witness for C4 at status code 99, which is absent from the table. -/
theorem C4_witness : Ticket.statusLabel 99 = "status_99" := by
  obtain ⟨attrs, h⟩ := C4_ticket_labels 99 1 1
  exact h.2.2.2.2.2.2.2.2 (by decide)

/-- C5: the claim says every create operation serializes exactly the fields
the caller passed.  `TopicAPI.create_topic` accepts a `sticky` argument but
never forwards it to `_create_post`: calling it with `sticky=True` produces
a body whose `topic` payload holds `forum_id`, `title`, `locked` and
`body_html` only — the passed `sticky` field is omitted. -/
theorem C5_create_topic_drops_sticky :
    bodyField (create_topic_data (.int 1) (.str "t") (.str "b") (.bool true) (.bool false))
        "topic" "sticky" = Option.none ∧
    bodyField (create_topic_data (.int 1) (.str "t") (.str "b") (.bool true) (.bool false))
        "topic" "forum_id" = some (.int 1) ∧
    bodyField (create_topic_data (.int 1) (.str "t") (.str "b") (.bool true) (.bool false))
        "topic" "title" = some (.str "t") ∧
    bodyField (create_topic_data (.int 1) (.str "t") (.str "b") (.bool true) (.bool false))
        "topic" "locked" = some (.bool false) ∧
    bodyField (create_topic_data (.int 1) (.str "t") (.str "b") (.bool true) (.bool false))
        "topic" "body_html" = some (.str "b") :=
  ⟨rfl, rfl, rfl, rfl, rfl⟩

/-- A contact JSON fragment whose timestamp fields are not parseable as
timestamps. -/
def garbageFragment : List (String × PyVal) :=
  [("name", .str "Walter"), ("created_at", .str "not a timestamp"),
   ("updated_at", .str "garbage")]

/-- C6: the claim says hydration fails when `created_at`/`updated_at` are not
parseable as timestamps.  models.py imports the `dateutil.parser.parser`
CLASS under the name `_to_timestamp` applies, so hydration merely constructs
a parser object around the raw string and succeeds on arbitrary garbage —
nothing is ever parsed, contradicting `_to_timestamp`'s own docstring. -/
theorem C6_unparseable_timestamps_accepted :
    (hydrate contactProps [] garbageFragment).2 =
      Except.ok [("updated_at", .parserObj (.str "garbage")),
                 ("created_at", .parserObj (.str "not a timestamp")),
                 ("updated_at", .str "garbage"),
                 ("created_at", .str "not a timestamp"),
                 ("name", .str "Walter")] := rfl

/-- C7: in `Topic.update` and `Post.update` every field of the request body
is built with the source's `new or old` expression, so a falsy passed value
(empty string, 0, False, None) is replaced by the instance's current value
and a truthy passed value is sent as given; the current body value used by
`Topic.update` is `self.posts[0].body_html` and the current `sticky` and
`locked` values are the boolean properties. -/
theorem C7_update_falsy_fallback (self_title self_posts0 : PyVal)
    (self_sticky self_locked : Bool) (title body_html sticky locked : PyVal)
    (self_post_body post_body_html : PyVal) :
    (title.truthy = false →
      bodyField (Topic.update_body self_title self_posts0 self_sticky self_locked
        title body_html sticky locked) "topic" "title" = some self_title) ∧
    (title.truthy = true →
      bodyField (Topic.update_body self_title self_posts0 self_sticky self_locked
        title body_html sticky locked) "topic" "title" = some title) ∧
    (body_html.truthy = false →
      bodyField (Topic.update_body self_title self_posts0 self_sticky self_locked
        title body_html sticky locked) "topic" "body_html" = some self_posts0) ∧
    (body_html.truthy = true →
      bodyField (Topic.update_body self_title self_posts0 self_sticky self_locked
        title body_html sticky locked) "topic" "body_html" = some body_html) ∧
    (sticky.truthy = false →
      bodyField (Topic.update_body self_title self_posts0 self_sticky self_locked
        title body_html sticky locked) "topic" "sticky" = some (.bool self_sticky)) ∧
    (sticky.truthy = true →
      bodyField (Topic.update_body self_title self_posts0 self_sticky self_locked
        title body_html sticky locked) "topic" "sticky" = some sticky) ∧
    (locked.truthy = false →
      bodyField (Topic.update_body self_title self_posts0 self_sticky self_locked
        title body_html sticky locked) "topic" "locked" = some (.bool self_locked)) ∧
    (locked.truthy = true →
      bodyField (Topic.update_body self_title self_posts0 self_sticky self_locked
        title body_html sticky locked) "topic" "locked" = some locked) ∧
    (post_body_html.truthy = false →
      bodyField (Post.update_body self_post_body post_body_html)
        "post" "body_html" = some self_post_body) ∧
    (post_body_html.truthy = true →
      bodyField (Post.update_body self_post_body post_body_html)
        "post" "body_html" = some post_body_html) := by
  refine ⟨?_, ?_, ?_, ?_, ?_, ?_, ?_, ?_, ?_, ?_⟩ <;> intro h <;>
    simp [Topic.update_body, Post.update_body, create_post, bodyField, getAttr, pyOr, h] <;>
    rfl

/-- Witness for C7: a falsy passed title (the empty string) is replaced by
the instance's old title. -/
theorem C7_witness :
    bodyField (Topic.update_body (.str "Old title") (.str "old body") true false
      (.str "") (.str "new body") .pynone .pynone) "topic" "title" =
      some (.str "Old title") :=
  (C7_update_falsy_fallback (.str "Old title") (.str "old body") true false
    (.str "") (.str "new body") .pynone .pynone .pynone .pynone).1 rfl

/-- A topic JSON fragment whose `sticky` and `locked` fields hold symbolic
values. -/
def topicFragment (v w : PyVal) : List (String × PyVal) :=
  [("title", .str "T"), ("sticky", v), ("locked", w),
   ("created_at", .str "c"), ("updated_at", .str "u")]

/-- C8: constructing a Topic from a JSON fragment with `sticky` and `locked`
fields and reading the properties yields `bool(...)` of the stored values,
hence booleans; `0` and `false` both give `False`, `1` and `true` both give
`True`. -/
theorem C8_sticky_locked_booleans (v w : PyVal) :
    ∃ attrs : Attrs, (hydrate topicProps [] (topicFragment v w)).2 = Except.ok attrs ∧
      Topic.sticky attrs = some (pyBool v) ∧
      Topic.locked attrs = some (pyBool w) ∧
      pyBool (.int 0) = false ∧ pyBool (.bool false) = false ∧
      pyBool (.int 1) = true ∧ pyBool (.bool true) = true :=
  ⟨_, rfl, rfl, rfl, rfl, rfl, rfl, rfl⟩

/-- Witness for C8 at the concrete encodings 1 and false. -/
theorem C8_witness :
    ∃ attrs : Attrs,
      (hydrate topicProps [] (topicFragment (.int 1) (.bool false))).2 = Except.ok attrs ∧
      Topic.sticky attrs = some true ∧ Topic.locked attrs = some false := by
  obtain ⟨attrs, h1, h2, h3, -⟩ := C8_sticky_locked_booleans (.int 1) (.bool false)
  exact ⟨attrs, h1, h2, h3⟩

/-- Helper: a `hasattr` renaming stage leaves a name alone when the name is
not an attribute of the checked class. -/
theorem step_not_mem {a : List String} {k : String} (h : k ∉ a) : step a k = k := by
  simp [step, h]

/-- Helper: a renaming stage never shortens a name. -/
theorem length_le_step (a : List String) (k : String) : k.length ≤ (step a k).length := by
  unfold step
  split
  · simp [String.length_append]
  · exact Nat.le_refl _

/-- Helper: a renaming stage strictly lengthens a name it matches. -/
theorem length_lt_step_of_mem {a : List String} {k : String} (h : k ∈ a) :
    k.length < (step a k).length := by
  simp [step, h, String.length_append]
  decide

/-- A solution-category JSON fragment containing the key `folders`, the shape
`SolutionAPI.get_category` receives. -/
def scFragment : List (String × PyVal) :=
  [("name", .str "General"), ("folders", .list []),
   ("created_at", .str "c"), ("updated_at", .str "u")]

/-- C10: during hydration an incoming key is renamed with a leading
underscore exactly when it matches an attribute of one of the four classes
`Topic`, `Ticket`, `SolutionFolder`, `Solution` — whatever class is being
constructed — so the key `folders`, which matches only the
`SolutionCategory.folders` property, is not renamed and hydrating a
`SolutionCategory` fragment containing it fails on the `setattr` against the
setter-less property. -/
theorem C10_rename_cascade_and_folders_failure :
    (∀ k : String, rename k ≠ k ↔
      (k ∈ topicAttrs ∨ k ∈ ticketAttrs ∨ k ∈ solutionFolderAttrs ∨ k ∈ solutionAttrs)) ∧
    (hydrate solutionCategoryProps [] scFragment).2 =
      Except.error (PyExc.cantSetAttribute "folders") := by
  constructor
  · intro k
    constructor
    · intro hne
      by_contra hall
      push_neg at hall
      obtain ⟨h1, h2, h3, h4⟩ := hall
      exact hne (by simp [rename, step_not_mem, h1, h2, h3, h4])
    · intro hmem
      have hlen : k.length < (rename k).length := by
        unfold rename
        by_cases h1 : k ∈ topicAttrs
        · calc k.length < (step topicAttrs k).length := length_lt_step_of_mem h1
            _ ≤ (step ticketAttrs (step topicAttrs k)).length := length_le_step _ _
            _ ≤ (step solutionFolderAttrs (step ticketAttrs (step topicAttrs k))).length :=
              length_le_step _ _
            _ ≤ _ := length_le_step _ _
        · rw [step_not_mem h1]
          by_cases h2 : k ∈ ticketAttrs
          · calc k.length < (step ticketAttrs k).length := length_lt_step_of_mem h2
              _ ≤ (step solutionFolderAttrs (step ticketAttrs k)).length := length_le_step _ _
              _ ≤ _ := length_le_step _ _
          · rw [step_not_mem h2]
            by_cases h3 : k ∈ solutionFolderAttrs
            · calc k.length < (step solutionFolderAttrs k).length := length_lt_step_of_mem h3
                _ ≤ _ := length_le_step _ _
            · rw [step_not_mem h3]
              have h4 : k ∈ solutionAttrs := by tauto
              exact length_lt_step_of_mem h4
      intro heq
      rw [heq] at hlen
      exact Nat.lt_irrefl _ hlen
  · rfl

/-- Witness for C10: the key `sticky` matches a `Topic` attribute and is
renamed. -/
theorem C10_witness : rename "sticky" ≠ "sticky" :=
  (C10_rename_cascade_and_folders_failure.1 "sticky").mpr (Or.inl (by decide))

/-- Helper: `set.add` preserves existing members. -/
theorem mem_keysAdd {keys : List String} {x : String} (k : String) (h : x ∈ keys) :
    x ∈ keysAdd keys k := by
  unfold keysAdd
  split
  · exact h
  · exact List.mem_cons_of_mem _ h

/-- Helper: `set.add` makes its argument a member. -/
theorem mem_keysAdd_self (keys : List String) (k : String) : k ∈ keysAdd keys k := by
  unfold keysAdd
  split
  · assumption
  · exact List.mem_cons_self _ _

/-- Helper: the hydration loop never removes a member from the shared
`_keys` set, whether or not it finishes. -/
theorem hydrateLoop_keys_mono (props : List String) :
    ∀ (kwargs : List (String × PyVal)) (keys : List String) (attrs : Attrs) (x : String),
      x ∈ keys → x ∈ (hydrateLoop props kwargs keys attrs).1 := by
  intro kwargs
  induction kwargs with
  | nil => intro keys attrs x hx; exact hx
  | cons kv rest ih =>
    intro keys attrs x hx
    obtain ⟨k, v⟩ := kv
    simp only [hydrateLoop]
    split
    · exact hx
    · exact ih _ _ x (mem_keysAdd _ hx)

/-- Helper: when the hydration loop finishes, the renamed form of every
incoming key has been added to the shared `_keys` set. -/
theorem hydrateLoop_keys_contrib (props : List String) :
    ∀ (kwargs : List (String × PyVal)) (keys : List String) (attrs : Attrs),
      (∃ res, (hydrateLoop props kwargs keys attrs).2 = Except.ok res) →
      ∀ kv ∈ kwargs, rename kv.1 ∈ (hydrateLoop props kwargs keys attrs).1 := by
  intro kwargs
  induction kwargs with
  | nil => intro keys attrs _ kv hkv; exact absurd hkv (List.not_mem_nil kv)
  | cons kv0 rest ih =>
    intro keys attrs hok kv hkv
    obtain ⟨k, v⟩ := kv0
    simp only [hydrateLoop] at hok ⊢
    by_cases hp : rename k ∈ props
    · obtain ⟨res, hres⟩ := hok
      rw [if_pos hp] at hres
      exact absurd hres (by simp)
    · rw [if_neg hp] at hok ⊢
      rcases List.mem_cons.mp hkv with heq | hrest
      · subst heq
        exact hydrateLoop_keys_mono props rest _ _ _ (mem_keysAdd_self keys (rename k))
      · exact ih _ _ hok kv hrest

/-- Helper: the `_keys` set coming out of `hydrate` is the one coming out of
its loop (the trailing timestamp assignments never touch `_keys`). -/
theorem hydrate_keys_eq (props g : List String) (kwargs : List (String × PyVal)) :
    (hydrate props g kwargs).1 = (hydrateLoop props kwargs g []).1 := rfl

/-- Helper: a successful hydration means a successful loop. -/
theorem hydrate_ok_loop_ok {props g : List String} {kwargs : List (String × PyVal)}
    (h : ∃ res, (hydrate props g kwargs).2 = Except.ok res) :
    ∃ res, (hydrateLoop props kwargs g []).2 = Except.ok res := by
  obtain ⟨res, hres⟩ := h
  have hres2 : hydrateTimestamps (hydrateLoop props kwargs g []).2 = Except.ok res := hres
  cases h2 : (hydrateLoop props kwargs g []).2 with
  | ok a => exact ⟨a, rfl⟩
  | error e =>
    rw [h2] at hres2
    exact absurd hres2 (by simp [hydrateTimestamps])

/-- C9: the `_keys` set is one class-level accumulator shared by every
instance of every model class — `hydrate` threads a single state regardless
of the class's properties — and hydration only ever adds to it: existing
members survive any hydration, a successful hydration contributes the
renamed name of each of its fields, and those names remain observable after
a later hydration of an instance of any other class. -/
theorem C9_keys_shared_monotone_accumulator
    (props1 props2 g : List String) (kw1 kw2 : List (String × PyVal)) :
    (∀ x ∈ g, x ∈ (hydrate props1 g kw1).1) ∧
    ((∃ res, (hydrate props1 g kw1).2 = Except.ok res) →
      ∀ kv ∈ kw1, rename kv.1 ∈ (hydrate props1 g kw1).1 ∧
        rename kv.1 ∈ (hydrate props2 (hydrate props1 g kw1).1 kw2).1) := by
  constructor
  · intro x hx
    rw [hydrate_keys_eq]
    exact hydrateLoop_keys_mono props1 kw1 g [] x hx
  · intro hok kv hkv
    have h1 : rename kv.1 ∈ (hydrate props1 g kw1).1 := by
      rw [hydrate_keys_eq]
      exact hydrateLoop_keys_contrib props1 kw1 g [] (hydrate_ok_loop_ok hok) kv hkv
    refine ⟨h1, ?_⟩
    rw [hydrate_keys_eq props2]
    exact hydrateLoop_keys_mono props2 kw2 _ [] _ h1

/-- Witness for C9: hydrating a Ticket adds `_status` to the shared set,
keeps the pre-existing member `seed`, and a later Topic hydration still sees
`_status`. -/
theorem C9_witness :
    "seed" ∈ (hydrate ticketProps ["seed"] (ticketFragment 2 1 1)).1 ∧
    "_status" ∈ (hydrate ticketProps ["seed"] (ticketFragment 2 1 1)).1 ∧
    "_status" ∈ (hydrate topicProps (hydrate ticketProps ["seed"] (ticketFragment 2 1 1)).1
      (topicFragment (.int 1) (.int 0))).1 := by
  have h := C9_keys_shared_monotone_accumulator ticketProps topicProps ["seed"]
    (ticketFragment 2 1 1) (topicFragment (.int 1) (.int 0))
  have h2 := h.2 ⟨_, rfl⟩ ("status", .int 2) (by simp [ticketFragment])
  exact ⟨h.1 "seed" (by simp), h2.1, h2.2⟩

/-- Helper: facing `N` non-empty pages from `start` and an empty page right
after them, the pagination loop (given enough fuel) terminates and returns
the accumulator followed by the concatenation of the `N` pages in order. -/
theorem list_tickets_pages_spec (pages : Nat → List PyVal) :
    ∀ (N start : Nat) (acc : List PyVal) (fuel : Nat), N + 1 ≤ fuel →
      (∀ i, i < N → pages (start + i) ≠ []) → pages (start + N) = [] →
      list_tickets_pages pages fuel start acc =
        some (acc ++ ((List.range N).map (fun i => pages (start + i))).flatten) := by
  intro N
  induction N with
  | zero =>
    intro start acc fuel hfuel hne hempty
    obtain ⟨fuel2, rfl⟩ : ∃ f, fuel = f + 1 := ⟨fuel - 1, by omega⟩
    have h0 : pages start = [] := by simpa using hempty
    simp [list_tickets_pages, h0]
  | succ n ih =>
    intro start acc fuel hfuel hne hempty
    obtain ⟨fuel2, rfl⟩ : ∃ f, fuel = f + 1 := ⟨fuel - 1, by omega⟩
    have hne0 : pages start ≠ [] := by simpa using hne 0 (Nat.succ_pos n)
    have hlen : ¬ (pages start).length = 0 := by
      simpa [List.length_eq_zero] using hne0
    simp only [list_tickets_pages]
    rw [if_neg hlen]
    rw [ih (start + 1) (acc ++ pages start) fuel2 (by omega)
      (fun i hi => by
        have h := hne (i + 1) (by omega)
        have harith : start + (i + 1) = start + 1 + i := by omega
        rw [harith] at h
        exact h)
      (by
        have harith : start + 1 + n = start + (n + 1) := by omega
        rw [harith]
        exact hempty)]
    rw [List.range_succ_eq_map]
    simp only [List.map_cons, List.map_map, List.flatten_cons, Nat.add_zero, List.append_assoc]
    have hfun : ((fun i => pages (start + i)) ∘ Nat.succ) = (fun i => pages (start + 1 + i)) :=
      funext fun i => congrArg pages (by omega)
    rw [hfun]

/-- Helper: the final list comprehension of `list_tickets` maps cleanly when
no element raises. -/
theorem comprehension_ok {α : Type} (f : PyVal → Except PyExc α) (g : PyVal → α) :
    ∀ l : List PyVal, (∀ t ∈ l, f t = Except.ok (g t)) →
      comprehension f l = Except.ok (l.map g) := by
  intro l
  induction l with
  | nil => intro _; rfl
  | cons t ts ih =>
    intro h
    have ht := h t (List.mem_cons_self t ts)
    have hts := ih (fun u hu => h u (List.mem_cons_of_mem t hu))
    simp [comprehension, ht, hts]

/-- C3: against a server that returns `N` non-empty pages of ticket
summaries (each carrying a `display_id`) followed by an empty page,
`list_tickets` terminates having requested consecutive page numbers from 1
and returns exactly the concatenation of the `N` pages in order, with every
listed summary replaced by the re-fetch `get_ticket` of its display id. -/
theorem C3_list_tickets_pagination {α : Type} (pages : Nat → List PyVal)
    (get_ticket : PyVal → α) (displayId : PyVal → PyVal) (N fuel : Nat)
    (hfuel : N + 1 ≤ fuel)
    (hne : ∀ i, i < N → pages (1 + i) ≠ [])
    (hempty : pages (1 + N) = [])
    (hid : ∀ i, i < N → ∀ t ∈ pages (1 + i),
      getItem t "display_id" = Except.ok (displayId t)) :
    list_tickets pages get_ticket fuel =
      some (Except.ok ((((List.range N).map (fun i => pages (1 + i))).flatten).map
        (fun t => get_ticket (displayId t)))) := by
  unfold list_tickets
  rw [list_tickets_pages_spec pages N 1 [] fuel hfuel hne hempty]
  simp only [Option.map_some']
  congr 1
  apply comprehension_ok
  intro t ht
  rw [List.nil_append] at ht
  obtain ⟨s, hs, hts⟩ := List.mem_flatten.mp ht
  obtain ⟨i, hi, rfl⟩ := List.mem_map.mp hs
  rw [hid i (List.mem_range.mp hi) t hts]
  rfl

/-- A concrete two-page server for the C3 witness. -/
def pagesW (p : Nat) : List PyVal :=
  if p = 1 then [.dict [("display_id", .int 10)]]
  else if p = 2 then [.dict [("display_id", .int 20)], .dict [("display_id", .int 21)]]
  else []

/-- A concrete stand-in for the per-ticket re-fetch in the C3 witness. -/
def get_ticketW (v : PyVal) : PyVal :=
  .dict [("fetched", v)]

/-- The display id stored in a concrete summary, for the C3 witness. -/
def displayIdW (t : PyVal) : PyVal :=
  match t with
  | .dict kvs => (kvs.lookup "display_id").getD .pynone
  | _ => .pynone

/-- Witness for C3 with two non-empty pages followed by an empty page. -/
theorem C3_witness :
    list_tickets pagesW get_ticketW 3 =
      some (Except.ok [get_ticketW (.int 10), get_ticketW (.int 20),
        get_ticketW (.int 21)]) := by
  have h := C3_list_tickets_pagination pagesW get_ticketW displayIdW 2 3 (by omega)
    (by intro i hi; interval_cases i <;> simp [pagesW])
    (by simp [pagesW])
    (by
      intro i hi t ht
      interval_cases i <;> simp [pagesW] at ht
      · subst ht; rfl
      · rcases ht with rfl | rfl <;> rfl)
  rw [h]
  rfl

end Freshdesk
